import Mathlib

/-!
Shallow embedding of the kiwi-crawler repository (src/configs.py, src/utils.py,
src/flight.py, src/main.py) and proofs about its specified behaviour.

Modelling conventions:
* Python dicts keyed by strings become insertion-ordered association lists
  (matching Python 3.7+ dict semantics: update-in-place keeps position, a new
  key is appended).
* `send_request` returns a decoded JSON dict on success and `None` (after
  catching `aiohttp.ClientError`) on fetch failure; this is modelled as an
  `Option`.  Subscripting `None` in a caller raises `TypeError`, modelled as
  `Except.error`.
* `asyncio.gather` without `return_exceptions=True` is modelled sequentially in
  task-list order: the first exception propagates to the awaiter and the code
  after the `await` (the file write) does not run.
* `datetime.fromtimestamp` decoding of unix seconds into a local calendar date
  is abstracted: a Flight carries its departure/arrival calendar dates
  directly, which is the only part the date accessors use.
* The semaphore bounding validation fetches is modelled as a labelled
  transition system over task phases, with the acquire/release discipline of
  `check_flight` (acquire around each `send_request` attempt).
-/

namespace Kiwi

/-! ### configs.py -/

/-- configs.py: delay time unit after a failed validation round (seconds). -/
def DELAY_TIME : Nat := 10

/-- configs.py: period between validation passes (seconds). -/
def CHECK_FLIGHT_PERIOD : Nat := 900

/-- configs.py: capacity of the asyncio.Semaphore bounding concurrent
validation-check fetches. -/
def MAX_TASKS : Nat := 30

/-- configs.py: the fixed list of route directions searched daily. -/
def FLIGHT_DIRECTIONS : List (String × String) :=
  [("ALA", "TSE"), ("TSE", "ALA"), ("ALA", "MOW"), ("MOW", "ALA"),
   ("ALA", "CIT"), ("CIT", "ALA"), ("TSE", "MOW"), ("MOW", "TSE"),
   ("TSE", "LED"), ("LED", "TSE")]

/-! ### Dates (datetime.date fragment used by utils.py and flight.py) -/

/-- A calendar date, the fragment of Python datetime.date the code uses. -/
structure Date where
  year : Nat
  month : Nat
  day : Nat
deriving DecidableEq, Repr

/-- Zero-padded two-digit rendering, as strftime %d and %m produce. -/
def pad2 (n : Nat) : String :=
  if n < 10 then "0" ++ toString n else toString n

/-- strftime "%d/%m/%Y" on a date (flight.py date accessors and
utils.get_date_range both use this format). -/
def formatDate (d : Date) : String :=
  pad2 d.day ++ "/" ++ pad2 d.month ++ "/" ++ toString d.year

/-! ### utils.py -/

/-- utils.get_next_month: cur_date.replace(year=cur_date.year + 1, month=1) if
cur_date.month == 12 else cur_date.replace(month=cur_date.month + 1).
Note: Python date.replace keeps every field not named, so the day component is
kept as-is. -/
def get_next_month (cur_date : Date) : Date :=
  if cur_date.month == 12 then
    { cur_date with year := cur_date.year + 1, month := 1 }
  else
    { cur_date with month := cur_date.month + 1 }

/-- utils.get_date_range, with date.today() supplied explicitly: returns
(cur_date strftime %d/%m/%Y, get_next_month cur_date strftime %d/%m/%Y). -/
def get_date_range (today : Date) : String × String :=
  (formatDate today, formatDate (get_next_month today))

/-! ### flight.py -/

/-- One entry of the search-response data array (§6 of the code docs): the
fields Flight.__init__ reads.  dTime/aTime are held as the calendar dates the
timestamps decode to (see module conventions above). -/
structure FlightJson where
  booking_token : String
  cityCodeFrom : String
  cityCodeTo : String
  price : Int
  dTime : Date
  aTime : Date
deriving DecidableEq, Repr

/-- flight.py Flight: the mutable record stored per route/day. -/
structure Flight where
  is_valid : Bool
  booking_token : String
  fly_from : String
  fly_to : String
  price : Int
  dep_time : Date
  arr_time : Date
deriving DecidableEq, Repr

/-- Flight.__init__: is_valid defaults to True, the rest copied from the
response entry. -/
def Flight.ofJson (json_data : FlightJson) : Flight :=
  { is_valid := true
    booking_token := json_data.booking_token
    fly_from := json_data.cityCodeFrom
    fly_to := json_data.cityCodeTo
    price := json_data.price
    dep_time := json_data.dTime
    arr_time := json_data.aTime }

/-- flight.py Flight.dep_date property: dep_time.date().strftime("%d/%m/%Y"). -/
def Flight.dep_date (f : Flight) : String := formatDate f.dep_time

/-- flight.py Flight.arr_date property: arr_time.date().strftime("%d/%m/%Y"). -/
def Flight.arr_date (f : Flight) : String := formatDate f.arr_time

/-- Python str(datetime) for a date at midnight, abstracted to the date part
(used only through equality of rendered lines). -/
def pyDatetimeStr (d : Date) : String :=
  toString d.year ++ "-" ++ pad2 d.month ++ "-" ++ pad2 d.day

/-- flight.py Flight.__str__: the pipe-delimited output line. -/
def Flight.str (f : Flight) : String :=
  String.intercalate " | "
    ["fly_from: " ++ f.fly_from,
     "fly_to: " ++ f.fly_to,
     "dep_time: " ++ pyDatetimeStr f.dep_time,
     "arr_time: " ++ pyDatetimeStr f.arr_time,
     "price: " ++ toString f.price]

/-! ### Result Store (the self.flights dict of main.py) -/

/-- The Result Store: Python dict modelled as an insertion-ordered
association list from key strings to Flights. -/
abbrev Store := List (String × Flight)

/-- Dict lookup: flights[key] when present. -/
def storeFind : Store → String → Option Flight
  | [], _ => none
  | p :: rest, k => if p.1 = k then some p.2 else storeFind rest k

/-- Dict assignment flights[key] = v: update in place if the key exists
(keeping its position), otherwise append, as Python 3.7+ dicts do. -/
def storeInsert : Store → String → Flight → Store
  | [], k, v => [(k, v)]
  | p :: rest, k, v =>
    if p.1 = k then (k, v) :: rest else p :: storeInsert rest k v

/-- main.py line 104: key = join of fly_from, fly_to, str(flight.dep_date). -/
def flightKey (f : Flight) : String :=
  String.intercalate "-" [f.fly_from, f.fly_to, f.dep_date]

/-- The per-candidate body of the loop in Crawler.search_flight (lines
102-108): skip (continue) only when the stored entry is valid and strictly
cheaper, else assign the candidate. -/
def upsertFlight (store : Store) (f : Flight) : Store :=
  let key := flightKey f
  match storeFind store key with
  | some old =>
      if old.is_valid = true ∧ old.price < f.price then store
      else storeInsert store key f
  | none => storeInsert store key f

theorem storeFind_storeInsert_self (s : Store) (k : String) (v : Flight) :
    storeFind (storeInsert s k v) k = some v := by
  induction s with
  | nil => simp [storeInsert, storeFind]
  | cons p rest ih =>
    by_cases h : p.1 = k
    · simp [storeInsert, storeFind, h]
    · simp [storeInsert, storeFind, h, ih]

/-! ### main.py Crawler.send_request and Crawler.search_flight -/

/-- The decoded body of a successful search fetch: JSON with a data array.
Crawler.send_request yields `some` of this on success and `none` on any
aiohttp.ClientError (transport error or, via raise_for_status, non-2xx
status), which it catches, logs and falls out of without returning. -/
structure SearchResponse where
  data : List FlightJson
deriving DecidableEq, Repr

/-- Crawler.search_flight (lines 88-108), given the result of its
send_request fetch.  When the fetch failed, send_request returned None, and
the line `for json_data in response_data["data"]` subscripts None, raising
TypeError (modelled as Except.error); on success every entry is upserted into
the store via the replace rule. -/
def search_flight (response : Option SearchResponse) (store : Store) :
    Except String Store :=
  match response with
  | none => Except.error "TypeError: NoneType object is not subscriptable"
  | some r =>
      Except.ok (r.data.foldl (fun st j => upsertFlight st (Flight.ofJson j)) store)

/-! ### main.py daily search pass (body of search_flights_periodically) -/

/-- Outcome of one daily pass: the Result Store afterwards and the file
content written by write_to_file, or `none` when the pass aborted before the
write. -/
structure PassResult where
  store : Store
  written : Option String
deriving DecidableEq, Repr

/-- Crawler.write_to_file (lines 147-154): truncating write of one
Flight.__str__ line per stored flight, in dict order. -/
def write_to_file (store : Store) : String :=
  String.join (store.map fun p => p.2.str ++ "\n")

/-- asyncio.gather over the per-route search_flight tasks, without
return_exceptions: tasks are serialised in list order and the first exception
propagates to the awaiter, leaving the store as mutated so far. Returns the
store and whether the gather completed without an exception. -/
def gatherSearches : List (Option SearchResponse) → Store → Store × Bool
  | [], store => (store, true)
  | r :: rest, store =>
    match search_flight r store with
    | Except.ok st => gatherSearches rest st
    | Except.error _ => (store, false)

/-- One iteration of the while-loop of Crawler.search_flights_periodically
(lines 160-171), with the per-route fetch results supplied: reset
self.flights to the empty dict, gather one search_flight per direction, and
(only if the gather did not raise) write the store to the output file. -/
def dailyPass (responses : List (Option SearchResponse)) (_prev : Store) :
    PassResult :=
  let cleared : Store := []
  let result := gatherSearches responses cleared
  { store := result.1
    written := if result.2 then some (write_to_file result.1) else none }

/-! ### main.py Crawler.check_flight -/

/-- The decoded body of a check fetch (§6): flights_checked drives the retry
loop; flights_invalid, price_change and total drive the post-loop dispatch. -/
structure CheckResponse where
  flights_checked : Bool
  flights_invalid : Bool
  price_change : Bool
  total : Int
deriving DecidableEq, Repr

/-- A call to search_flight recorded with its four arguments (used to state
what the invalid-flight branch triggers). -/
structure SearchCall where
  fly_from : String
  fly_to : String
  date_from : String
  date_to : String
deriving DecidableEq, Repr

/-- The retry loop of Crawler.check_flight (lines 119-126), driven by the
successive values of data["flights_checked"], one per round, starting with
retries = 0.  After a round whose response is not checked, retries is
incremented and asyncio.sleep(DELAY_TIME * retries) runs.  Returns the list
of delays slept and the final retries count; `none` when no round in the
supplied trace reports checked (the loop is still running). -/
def checkRetryTrace : List Bool → Nat → Option (List Nat × Nat)
  | [], _ => none
  | checked :: rest, retries =>
    if checked then some ([], retries)
    else
      match checkRetryTrace rest (retries + 1) with
      | some (delays, final) => some (DELAY_TIME * (retries + 1) :: delays, final)
      | none => none

/-- check_flight retry loop entered with retries = 0. -/
def check_flight_loop (rounds : List Bool) : Option (List Nat × Nat) :=
  checkRetryTrace rounds 0

/-- The post-loop dispatch of Crawler.check_flight (lines 128-133), given the
checked response: returns the flight after mutation and the search_flight
calls triggered. -/
def checkDispatch (data : CheckResponse) (flight : Flight) :
    Flight × List SearchCall :=
  if data.flights_invalid then
    ({ flight with is_valid := false },
     [{ fly_from := flight.fly_from, fly_to := flight.fly_to,
        date_from := flight.dep_date, date_to := flight.arr_date }])
  else if data.price_change then
    ({ flight with price := data.total }, [])
  else
    (flight, [])

/-! ### main.py concurrency limiter (asyncio.Semaphore(MAX_TASKS)) -/

/-- Phase of one check_flight task with respect to the semaphore: before
`async with self.semaphore` (idle), holding the semaphore while its
send_request fetch is in flight (fetching), or past the loop (done). -/
inductive CheckPhase
  | idle
  | fetching
  | done
deriving DecidableEq, Repr

/-- Scheduler state: free semaphore slots, the phase of every check_flight
task, and the number of concurrently running search fetches.  search_flight
calls send_request without touching the semaphore, so search fetches are
tracked by a bare counter with unguarded start steps. -/
structure LimiterState where
  available : Nat
  checks : List CheckPhase
  searching : Nat
deriving DecidableEq, Repr

/-- Initial state: Semaphore(capacity) with all slots free, every check task
before its first acquire, no search fetch running. -/
def initState (capacity nChecks : Nat) : LimiterState :=
  { available := capacity
    checks := List.replicate nChecks CheckPhase.idle
    searching := 0 }

/-- The check fetches currently holding a semaphore slot. -/
def countFetching (checks : List CheckPhase) : Nat :=
  checks.countP fun c => decide (c = CheckPhase.fetching)

/-- One scheduler step.  acquire/release model the `async with
self.semaphore` block around the fetch in check_flight (lines 121-122): a
task starts its fetch only when a slot is free and returns the slot when the
fetch ends, moving to idle for another retry round or to done after the
break.  searchStart/searchEnd model send_request calls made by search_flight,
which never acquire the semaphore (hence no guard on searchStart). -/
inductive LimStep : LimiterState → LimiterState → Prop
  | acquire (s : LimiterState) (i : Nat) (hlen : i < s.checks.length)
      (hidle : s.checks[i] = CheckPhase.idle) (hava : 0 < s.available) :
      LimStep s { s with available := s.available - 1,
                         checks := s.checks.set i CheckPhase.fetching }
  | release (s : LimiterState) (i : Nat) (next : CheckPhase)
      (hlen : i < s.checks.length)
      (hfetch : s.checks[i] = CheckPhase.fetching)
      (hnext : next ≠ CheckPhase.fetching) :
      LimStep s { s with available := s.available + 1,
                         checks := s.checks.set i next }
  | searchStart (s : LimiterState) :
      LimStep s { s with searching := s.searching + 1 }
  | searchEnd (s : LimiterState) (h : 0 < s.searching) :
      LimStep s { s with searching := s.searching - 1 }

/-- States reachable from initState capacity nChecks. -/
def Reachable (capacity nChecks : Nat) (s : LimiterState) : Prop :=
  Relation.ReflTransGen LimStep (initState capacity nChecks) s

theorem countFetching_replicate_idle (n : Nat) :
    countFetching (List.replicate n CheckPhase.idle) = 0 := by
  induction n with
  | zero => rfl
  | succ n ih =>
      simp only [List.replicate_succ, countFetching, List.countP_cons] at *
      simp [ih]

theorem limStep_preserves {cap : Nat} {s t : LimiterState} (h : LimStep s t)
    (hinv : countFetching s.checks + s.available = cap) :
    countFetching t.checks + t.available = cap := by
  cases h with
  | acquire i hlen hidle hava =>
      have hset := List.countP_set (fun c => decide (c = CheckPhase.fetching))
        s.checks i CheckPhase.fetching hlen
      rw [hidle] at hset
      simp only [decide_eq_true_eq, reduceCtorEq, if_false, if_true,
        Nat.sub_zero] at hset
      simp only [countFetching] at hinv ⊢
      simp only [hset]
      omega
  | release i next hlen hfetch hnext =>
      have hset := List.countP_set (fun c => decide (c = CheckPhase.fetching))
        s.checks i next hlen
      have hbound := List.boole_getElem_le_countP
        (fun c => decide (c = CheckPhase.fetching)) s.checks i hlen
      rw [hfetch] at hset hbound
      simp only [decide_eq_true_eq, hnext, if_false, if_true,
        Nat.add_zero] at hset hbound
      simp only [countFetching] at hinv ⊢
      simp only [hset]
      omega
  | searchStart => simpa [countFetching] using hinv
  | searchEnd h => simpa [countFetching] using hinv

theorem reachable_invariant {capacity nChecks : Nat} {s : LimiterState}
    (h : Reachable capacity nChecks s) :
    countFetching s.checks + s.available = capacity := by
  induction h with
  | refl => simp [initState, countFetching_replicate_idle]
  | tail _ hstep ih => exact limStep_preserves hstep ih

theorem searching_unbounded (capacity nChecks k : Nat) :
    ∃ s : LimiterState, Reachable capacity nChecks s ∧ s.searching = k := by
  induction k with
  | zero => exact ⟨initState capacity nChecks, Relation.ReflTransGen.refl, rfl⟩
  | succ k ih =>
      obtain ⟨s, hs, hk⟩ := ih
      exact ⟨{ s with searching := s.searching + 1 },
             Relation.ReflTransGen.tail hs (LimStep.searchStart s),
             by simp [hk]⟩

/-! ### Lemmas about the check_flight retry loop -/

theorem checkRetryTrace_append_true (k r : Nat) :
    checkRetryTrace (List.replicate k false ++ [true]) r =
      some (((List.range k).map fun i => DELAY_TIME * (r + i + 1)), r + k) := by
  induction k generalizing r with
  | zero => simp [checkRetryTrace]
  | succ k ih =>
      have hmap : (List.range (k + 1)).map (fun i => DELAY_TIME * (r + i + 1)) =
          DELAY_TIME * (r + 1) ::
            (List.range k).map fun i => DELAY_TIME * (r + 1 + i + 1) := by
        rw [List.range_succ_eq_map, List.map_cons, List.map_map]
        refine congrArg₂ _ (by simp) (List.map_congr_left ?_)
        intro i _
        simp only [Function.comp_apply]
        congr 1
        omega
      rw [List.replicate_succ, List.cons_append]
      rw [checkRetryTrace]
      simp only [if_neg (by simp : ¬(false = true))]
      rw [ih (r + 1)]
      simp [hmap]
      omega

theorem checkRetryTrace_eq_none_iff (rounds : List Bool) (r : Nat) :
    checkRetryTrace rounds r = none ↔ true ∉ rounds := by
  induction rounds generalizing r with
  | nil => simp [checkRetryTrace]
  | cons b rest ih =>
      cases b with
      | true => simp [checkRetryTrace]
      | false =>
          rw [checkRetryTrace]
          simp only [if_neg (by simp : ¬(false = true))]
          cases h : checkRetryTrace rest (r + 1) with
          | none =>
              have := (ih (r + 1)).mp h
              simp [this]
          | some p =>
              have : true ∈ rest := by
                by_contra hmem
                rw [(ih (r + 1)).mpr hmem] at h
                exact Option.noConfusion h
              simp [this]

/-! ### Concrete sample data (used by witnesses and bug exhibits) -/

/-- A sample search-response entry for route ALA to TSE, price 100. -/
def sampleJson1 : FlightJson :=
  { booking_token := "tokA", cityCodeFrom := "ALA", cityCodeTo := "TSE",
    price := 100, dTime := ⟨2026, 10, 15⟩, aTime := ⟨2026, 10, 15⟩ }

/-- A sample search-response entry for route TSE to ALA, price 120. -/
def sampleJson2 : FlightJson :=
  { booking_token := "tokB", cityCodeFrom := "TSE", cityCodeTo := "ALA",
    price := 120, dTime := ⟨2026, 10, 16⟩, aTime := ⟨2026, 10, 16⟩ }

/-- A sample successful search response with one entry. -/
def sampleResp1 : SearchResponse := ⟨[sampleJson1]⟩

/-- A second sample successful search response with one entry. -/
def sampleResp2 : SearchResponse := ⟨[sampleJson2]⟩

/-- A sample stored Flight (valid, price 100, dep 15/10/2026, arr
16/10/2026). -/
def sampleFlight : Flight :=
  { is_valid := true, booking_token := "tokA", fly_from := "ALA",
    fly_to := "TSE", price := 100, dep_time := ⟨2026, 10, 15⟩,
    arr_time := ⟨2026, 10, 16⟩ }

/-! ### The claims -/

/-- C1: Result Store upsert rule of Crawler.search_flight: for the candidate
key, the candidate replaces the stored entry unless the stored entry is both
valid and strictly cheaper; in particular an invalid stored flight is always
replaced by any new candidate, and a candidate whose price equals a valid
stored price replaces it (the comparison is strict). -/
theorem c1_result_store_upsert (store : Store) (f : Flight) :
    storeFind (upsertFlight store f) (flightKey f) =
      match storeFind store (flightKey f) with
      | some old =>
          if old.is_valid = true ∧ old.price < f.price then some old else some f
      | none => some f := by
  cases h : storeFind store (flightKey f) with
  | none => simp [upsertFlight, h, storeFind_storeInsert_self]
  | some old =>
      by_cases hc : old.is_valid = true ∧ old.price < f.price
      · simp [upsertFlight, h, hc]
      · simp [upsertFlight, h, hc, storeFind_storeInsert_self]

/-- C2 (bug exhibit): on fetch failure send_request returns an absent result
(modelled none) — but search_flight applied to that absent result raises a
TypeError when it subscripts it, instead of completing normally with no
updates. -/
theorem c2_fetch_failure_raises (store : Store) :
    search_flight none store =
      Except.error "TypeError: NoneType object is not subscriptable" := rfl

/-- C3 (bug exhibit): asyncio.gather without return_exceptions propagates the
first per-route exception to the awaiter of the daily pass, so the pass's
file write is skipped; the same pass with every fetch succeeding does reach
the write. -/
theorem c3_gather_aborts_pass :
    (dailyPass [some sampleResp1, none, some sampleResp2] []).written = none ∧
    (dailyPass [some sampleResp1, some sampleResp2] []).written.isSome
      = true := by
  exact ⟨rfl, rfl⟩

/-- C4 (bug exhibit): get_date_range keeps the day-of-month in date_to: for
today 15/10/2026 it returns date_to 15/11/2026, not the first day of the next
month 01/11/2026 — get_next_month only replaces year/month and leaves the day
unchanged, contradicting its own docstring (get next month FIRST date). -/
theorem c4_date_window_exhibit :
    get_date_range ⟨2026, 10, 15⟩ = ("15/10/2026", "15/11/2026") ∧
    get_next_month ⟨2026, 10, 15⟩ = ⟨2026, 11, 15⟩ ∧
    ("15/11/2026" : String) ≠ "01/11/2026" :=
  ⟨rfl, rfl, by decide⟩

/-- C5: check_flight retry loop: retries starts at 0 and increments once per
round whose response is not checked, the delay slept before the Nth retry is
DELAY_TIME * N, and the loop terminates exactly when some round reports
flights_checked true (for a trace of k unchecked rounds then a checked one,
the delays are DELAY_TIME * 1, ..., DELAY_TIME * k and the final count is k;
a trace with no checked round never exits). -/
theorem c5_retry_backoff :
    (∀ k : Nat,
        check_flight_loop (List.replicate k false ++ [true]) =
          some (((List.range k).map fun i => DELAY_TIME * (i + 1)), k)) ∧
    (∀ rounds : List Bool, check_flight_loop rounds = none ↔ true ∉ rounds) := by
  constructor
  · intro k
    have h := checkRetryTrace_append_true k 0
    simpa [check_flight_loop] using h
  · intro rounds
    exact checkRetryTrace_eq_none_iff rounds 0

/-- Witness for C5 at k = 2: two unchecked rounds then a checked one give
delays DELAY_TIME * 1 and DELAY_TIME * 2 and final retries 2. -/
theorem c5_retry_backoff_witness :
    check_flight_loop [false, false, true] =
      some ([DELAY_TIME * 1, DELAY_TIME * 2], 2) := by
  have h := c5_retry_backoff.1 2
  simpa [List.replicate, List.range_succ] using h

/-- C6: post-check dispatch of check_flight: an invalid response marks the
flight invalid and triggers exactly one search call; otherwise price_change
updates the price in place to the response total; otherwise the flight is
unchanged and no search is triggered. -/
theorem c6_post_check_dispatch (data : CheckResponse) (flight : Flight) :
    (data.flights_invalid = true →
        (checkDispatch data flight).1 = { flight with is_valid := false } ∧
        (checkDispatch data flight).2.length = 1) ∧
    (data.flights_invalid = false → data.price_change = true →
        (checkDispatch data flight).1 = { flight with price := data.total } ∧
        (checkDispatch data flight).2 = []) ∧
    (data.flights_invalid = false → data.price_change = false →
        checkDispatch data flight = (flight, [])) := by
  refine ⟨fun h => ?_, fun h1 h2 => ?_, fun h1 h2 => ?_⟩ <;>
    simp [checkDispatch, *]

/-- Witness for C6: the three dispatch branches at concrete responses. -/
theorem c6_post_check_dispatch_witness :
    ((checkDispatch ⟨true, true, false, 0⟩ sampleFlight).1 =
        { sampleFlight with is_valid := false } ∧
      (checkDispatch ⟨true, true, false, 0⟩ sampleFlight).2.length = 1) ∧
    ((checkDispatch ⟨true, false, true, 90⟩ sampleFlight).1 =
        { sampleFlight with price := 90 } ∧
      (checkDispatch ⟨true, false, true, 90⟩ sampleFlight).2 = []) ∧
    checkDispatch ⟨true, false, false, 0⟩ sampleFlight = (sampleFlight, []) :=
  ⟨(c6_post_check_dispatch ⟨true, true, false, 0⟩ sampleFlight).1 rfl,
   (c6_post_check_dispatch ⟨true, false, true, 90⟩ sampleFlight).2.1 rfl rfl,
   (c6_post_check_dispatch ⟨true, false, false, 0⟩ sampleFlight).2.2 rfl rfl⟩

/-- C7: in every state reachable from a full Semaphore(MAX_TASKS) and any
number of check tasks, at most MAX_TASKS check fetches hold a slot
simultaneously (every fetch is inside the acquire/release block), while the
number of concurrent search fetches is unbounded: every count is reachable. -/
theorem c7_limiter_bound :
    (∀ (nChecks : Nat) (s : LimiterState),
        Reachable MAX_TASKS nChecks s → countFetching s.checks ≤ MAX_TASKS) ∧
    (∀ nChecks k : Nat, ∃ s : LimiterState,
        Reachable MAX_TASKS nChecks s ∧ s.searching = k) := by
  constructor
  · intro n s h
    have hinv := reachable_invariant h
    omega
  · intro n k
    exact searching_unbounded MAX_TASKS n k

/-- Witness for C7 at a burst of 45 check tasks (more than capacity): the
bound holds at a concrete reachable state, and 31 concurrent search fetches
(more than MAX_TASKS) are reachable. -/
theorem c7_limiter_bound_witness :
    countFetching (initState MAX_TASKS 45).checks ≤ MAX_TASKS ∧
    ∃ s : LimiterState, Reachable MAX_TASKS 45 s ∧ s.searching = 31 :=
  ⟨c7_limiter_bound.1 45 (initState MAX_TASKS 45) Relation.ReflTransGen.refl,
   c7_limiter_bound.2 45 31⟩

/-- C8: daily-pass idempotence: one daily pass first resets self.flights to
the empty dict and then repopulates it deterministically from the responses,
so against identical responses the pass yields an identical Result Store and
identical written file content regardless of the store it started from — in
particular running the pass twice equals running it once. -/
theorem c8_daily_pass_idempotent (responses : List (Option SearchResponse))
    (s t : Store) :
    dailyPass responses s = dailyPass responses t ∧
    dailyPass responses (dailyPass responses s).store = dailyPass responses s :=
  ⟨rfl, rfl⟩

/-- C9: invalidation takes precedence over price update: when the checked
response has flights_invalid true, the elif branch is never reached, so every
Flight field other than is_valid — in particular price — is unchanged, even
if the response also carries price_change true with a new total. -/
theorem c9_invalid_overrides_price (data : CheckResponse) (flight : Flight)
    (hinv : data.flights_invalid = true) :
    (checkDispatch data flight).1.price = flight.price ∧
    (checkDispatch data flight).1.booking_token = flight.booking_token ∧
    (checkDispatch data flight).1.fly_from = flight.fly_from ∧
    (checkDispatch data flight).1.fly_to = flight.fly_to ∧
    (checkDispatch data flight).1.dep_time = flight.dep_time ∧
    (checkDispatch data flight).1.arr_time = flight.arr_time := by
  simp [checkDispatch, hinv]

/-- Witness for C9: a response that is invalid AND carries price_change true
with total 999 leaves the stored price 100 untouched. -/
theorem c9_invalid_overrides_price_witness :
    (checkDispatch ⟨true, true, true, 999⟩ sampleFlight).1.price =
      sampleFlight.price :=
  (c9_invalid_overrides_price ⟨true, true, true, 999⟩ sampleFlight rfl).1

/-- C10: the re-search triggered for an invalidated flight is called with
date_from = that flight's dep_date and date_to = that flight's arr_date
(both the dd/mm/yyyy renderings of the flight's own dates), not with the
daily pass's stored window. -/
theorem c10_self_heal_window (data : CheckResponse) (flight : Flight)
    (hinv : data.flights_invalid = true) :
    (checkDispatch data flight).2 =
      [{ fly_from := flight.fly_from, fly_to := flight.fly_to,
         date_from := formatDate flight.dep_time,
         date_to := formatDate flight.arr_time }] := by
  simp [checkDispatch, hinv, Flight.dep_date, Flight.arr_date]

/-- Witness for C10: the sample flight departing 15/10/2026 and arriving
16/10/2026 triggers a search over exactly that window. -/
theorem c10_self_heal_window_witness :
    (checkDispatch ⟨true, true, false, 0⟩ sampleFlight).2 =
      [{ fly_from := "ALA", fly_to := "TSE",
         date_from := "15/10/2026", date_to := "16/10/2026" }] := by
  have h := c10_self_heal_window ⟨true, true, false, 0⟩ sampleFlight rfl
  exact h

end Kiwi
